import Mathlib

/-!
Verification of the state-management and persistence module of the
`gpt_todo` single-page todo application (`src/App.jsx`).

The task store holds an ordered list of task objects; its operations
(`addTodo`, `toggleTodo`, `deleteTodo`, `clearCompleted`) and the derived
view (`filteredTodos`) are pure list transformations embedded below.
Persistence goes through the host `localStorage` (string key-value store)
and the host JSON codec (`JSON.stringify` / `JSON.parse`); the JSON codec
is modelled explicitly, since the startup path depends on its failure
behaviour.
-/

namespace GptTodo

/-- Models the host string method `String.prototype.trim`: removes leading and
trailing whitespace characters. (`Char.isWhitespace` covers the whitespace
characters that occur in practice; the exact Unicode whitespace set of the
host does not matter to the claims, which only distinguish
trimmed-empty from trimmed-non-empty.) -/
def jsTrim (s : String) : String :=
  String.mk (((s.data.dropWhile Char.isWhitespace).reverse.dropWhile
    Char.isWhitespace).reverse)

/-- A task object, as constructed in `addTodo` (`src/App.jsx` lines 27-33):
`{ id: Date.now(), text, completed: false, priority, createdAt: new Date().toISOString() }`.
`id` is a JS number holding an integer millisecond timestamp, modelled as `Int`;
`priority` and `createdAt` are strings. -/
structure Task where
  id : Int
  text : String
  completed : Bool
  priority : String
  createdAt : String
  deriving Repr, DecidableEq, Inhabited

/-- `addTodo` (`src/App.jsx` lines 25-35): if `text.trim()` is empty the call
returns without changing the list; otherwise a new task is prepended.
`newId` models the value of `Date.now()` and `now` the value of
`new Date().toISOString()` at the moment of the call. -/
def addTodo (text : String) (priority : String) (newId : Int) (now : String)
    (prev : List Task) : List Task :=
  if jsTrim text = "" then prev
  else { id := newId, text := text, completed := false, priority := priority,
         createdAt := now } :: prev

/-- `toggleTodo` (`src/App.jsx` lines 37-40):
`prev.map((t) => (t.id === id ? { ...t, completed: !t.completed } : t))`. -/
def toggleTodo (id : Int) (prev : List Task) : List Task :=
  prev.map (fun t => if t.id = id then { t with completed := !t.completed } else t)

/-- `deleteTodo` (`src/App.jsx` lines 42-43): `prev.filter((t) => t.id !== id)`. -/
def deleteTodo (id : Int) (prev : List Task) : List Task :=
  prev.filter (fun t => t.id != id)

/-- `clearCompleted` (`src/App.jsx` lines 45-46): `prev.filter((t) => !t.completed)`. -/
def clearCompleted (prev : List Task) : List Task :=
  prev.filter (fun t => !t.completed)

/-- `filteredTodos` (`src/App.jsx` lines 48-52), the derived visible list:
a pure function of the collection and the current filter string. -/
def filteredTodos (filter : String) (todos : List Task) : List Task :=
  if filter = "active" then todos.filter (fun t => !t.completed)
  else if filter = "completed" then todos.filter (fun t => t.completed)
  else todos

/-- Collections reachable from the initial empty collection by the four store
operations. In `Reachable.add` the id argument models `Date.now()`: the
environment supplies it, and nothing in the code prevents two calls from
receiving the same millisecond value. -/
inductive Reachable : List Task → Prop
  | empty : Reachable []
  | add (text priority : String) (newId : Int) (now : String) {s : List Task} :
      Reachable s → Reachable (addTodo text priority newId now s)
  | toggle (id : Int) {s : List Task} : Reachable s → Reachable (toggleTodo id s)
  | delete (id : Int) {s : List Task} : Reachable s → Reachable (deleteTodo id s)
  | clear {s : List Task} : Reachable s → Reachable (clearCompleted s)

/-- Sample task used by concrete witnesses. -/
def sampleA : Task :=
  { id := 1, text := "Buy milk", completed := false, priority := "low",
    createdAt := "2024-01-01T00:00:00.000Z" }

/-- Second sample task (completed) used by concrete witnesses. -/
def sampleB : Task :=
  { id := 2, text := "Call Bob", completed := true, priority := "high",
    createdAt := "2024-01-02T00:00:00.000Z" }

/-- JSON values: the values `JSON.parse` can produce and `JSON.stringify`
consumes. The number grammar of the model is restricted to integers, the only
numbers this application ever stores (`Date.now()` ids). -/
inductive Json where
  | null : Json
  | bool (b : Bool) : Json
  | num (n : Int) : Json
  | str (s : String) : Json
  | arr (elems : List Json) : Json
  | obj (fields : List (String × Json)) : Json
  deriving Repr, Inhabited

/-- JSON insignificant whitespace. -/
def isJsonWs (c : Char) : Bool :=
  c = ' ' || c = '\t' || c = '\n' || c = '\r'

/-- Drops leading JSON whitespace. -/
def skipWs : List Char → List Char
  | [] => []
  | c :: cs => if isJsonWs c then skipWs cs else c :: cs

/-- The opening-brace character. -/
def lbrace : Char := Char.ofNat 123

/-- The closing-brace character. -/
def rbrace : Char := Char.ofNat 125

/-- Body of a JSON string literal, after the opening quote; `acc` holds the
characters read so far, reversed. Handles the single-character escapes
(`\u` escapes, which `JSON.stringify` emits only for control characters,
are outside the model). -/
def parseStr : List Char → List Char → Except String (String × List Char)
  | [], _ => .error "unterminated string literal"
  | c :: cs, acc =>
    if c = '"' then .ok (String.mk acc.reverse, cs)
    else if c = '\\' then
      match cs with
      | [] => .error "unterminated escape"
      | e :: cs' =>
        if e = '"' then parseStr cs' ('"' :: acc)
        else if e = '\\' then parseStr cs' ('\\' :: acc)
        else if e = '/' then parseStr cs' ('/' :: acc)
        else if e = 'n' then parseStr cs' ('\n' :: acc)
        else if e = 't' then parseStr cs' ('\t' :: acc)
        else if e = 'r' then parseStr cs' ('\r' :: acc)
        else if e = 'b' then parseStr cs' (Char.ofNat 8 :: acc)
        else if e = 'f' then parseStr cs' (Char.ofNat 12 :: acc)
        else .error "unsupported escape"
    else parseStr cs (c :: acc)

/-- Splits off the leading run of decimal digits. -/
def takeDigits : List Char → List Char × List Char
  | [] => ([], [])
  | c :: cs =>
    if c.isDigit then
      let (ds, rest) := takeDigits cs
      (c :: ds, rest)
    else ([], c :: cs)

/-- Value of a digit run. -/
def digitsVal (ds : List Char) : Nat :=
  ds.foldl (fun a c => a * 10 + (c.toNat - 48)) 0

/-- A JSON number: optional minus sign followed by at least one digit
(integer grammar; see `Json`). -/
def parseNum : List Char → Except String (Int × List Char)
  | '-' :: cs =>
    match takeDigits cs with
    | ([], _) => .error "invalid number"
    | (ds, rest) => .ok (-(digitsVal ds : Int), rest)
  | cs =>
    match takeDigits cs with
    | ([], _) => .error "invalid number"
    | (ds, rest) => .ok ((digitsVal ds : Int), rest)

mutual

/-- One JSON value, with fuel bounding the nesting depth. Models the host
`JSON.parse` on the grammar this application uses; a syntax error is an
`Except.error`, modelling the `SyntaxError` the host throws. -/
def parseValue : Nat → List Char → Except String (Json × List Char)
  | 0, _ => .error "input too deeply nested"
  | fuel + 1, cs =>
    match skipWs cs with
    | [] => .error "unexpected end of input"
    | c :: cs' =>
      if c = 'n' then
        match cs' with
        | 'u' :: 'l' :: 'l' :: rest => .ok (.null, rest)
        | _ => .error "unexpected token"
      else if c = 't' then
        match cs' with
        | 'r' :: 'u' :: 'e' :: rest => .ok (.bool true, rest)
        | _ => .error "unexpected token"
      else if c = 'f' then
        match cs' with
        | 'a' :: 'l' :: 's' :: 'e' :: rest => .ok (.bool false, rest)
        | _ => .error "unexpected token"
      else if c = '"' then
        match parseStr cs' [] with
        | .error e => .error e
        | .ok (s, rest) => .ok (.str s, rest)
      else if c = '[' then
        match skipWs cs' with
        | ']' :: rest => .ok (.arr [], rest)
        | cs'' =>
          match parseElems fuel cs'' with
          | .error e => .error e
          | .ok (vs, rest) => .ok (.arr vs, rest)
      else if c = lbrace then
        match skipWs cs' with
        | [] => .error "unterminated object"
        | d :: rest =>
          if d = rbrace then .ok (.obj [], rest)
          else
            match parseMembers fuel (d :: rest) with
            | .error e => .error e
            | .ok (fs, rest') => .ok (.obj fs, rest')
      else if c = '-' || c.isDigit then
        match parseNum (c :: cs') with
        | .error e => .error e
        | .ok (n, rest) => .ok (.num n, rest)
      else .error "unexpected character"

/-- Comma-separated array elements up to the closing bracket. -/
def parseElems : Nat → List Char → Except String (List Json × List Char)
  | 0, _ => .error "input too deeply nested"
  | fuel + 1, cs =>
    match parseValue fuel cs with
    | .error e => .error e
    | .ok (v, rest) =>
      match skipWs rest with
      | ',' :: rest' =>
        match parseElems fuel rest' with
        | .error e => .error e
        | .ok (vs, rest'') => .ok (v :: vs, rest'')
      | ']' :: rest' => .ok ([v], rest')
      | _ => .error "expected comma or closing bracket"

/-- Comma-separated `"key": value` object members up to the closing brace. -/
def parseMembers : Nat → List Char → Except String (List (String × Json) × List Char)
  | 0, _ => .error "input too deeply nested"
  | fuel + 1, cs =>
    match skipWs cs with
    | '"' :: cs' =>
      match parseStr cs' [] with
      | .error e => .error e
      | .ok (k, rest) =>
        match skipWs rest with
        | ':' :: rest' =>
          match parseValue fuel rest' with
          | .error e => .error e
          | .ok (v, rest'') =>
            match skipWs rest'' with
            | ',' :: rest3 =>
              match parseMembers fuel rest3 with
              | .error e => .error e
              | .ok (fs, rest4) => .ok ((k, v) :: fs, rest4)
            | [] => .error "unterminated object"
            | d :: rest3 =>
              if d = rbrace then .ok ([(k, v)], rest3)
              else .error "expected comma or closing brace"
        | _ => .error "expected colon"
    | _ => .error "expected object key"

end

/-- Models `JSON.parse`: parses one value and requires the rest of the input
to be whitespace. The fuel `s.length + 1` exceeds any possible nesting depth,
since every nesting level consumes at least one character. -/
def Json.parse (s : String) : Except String Json :=
  match parseValue (s.length + 1) s.data with
  | .error e => .error e
  | .ok (v, rest) =>
    match skipWs rest with
    | [] => .ok v
    | _ => .error "unexpected trailing characters"

/-- The `todos` initializer (`src/App.jsx` lines 7-10):
`const saved = localStorage.getItem("modern_todos"); return saved ? JSON.parse(saved) : [];`.
`getItem` returns the stored string or null (`none` here); a present but
empty string is falsy in JS and also yields `[]`. `JSON.parse` is not wrapped
in try/catch, so a parse failure propagates out of the initializer: the
`Except.error` case models the thrown exception. -/
def initTodos (saved : Option String) : Except String Json :=
  match saved with
  | none => .ok (.arr [])
  | some s => if s = "" then .ok (.arr []) else Json.parse s

/-- The JSON image of a task object under `JSON.stringify`, with the field
order of the object literal in `addTodo`. -/
def taskToJson (t : Task) : Json :=
  .obj [("id", .num t.id), ("text", .str t.text), ("completed", .bool t.completed),
        ("priority", .str t.priority), ("createdAt", .str t.createdAt)]

/-- The persisted image of the collection: the JSON value whose canonical text
`JSON.stringify(todos)` writes under the key "modern_todos"
(`src/App.jsx` lines 17-19). The host JSON codec is a bijection between values
and their canonical renderings, so persistence and reloading are related at
the value level. -/
def persistTodos (todos : List Task) : Json :=
  .arr (todos.map taskToJson)

/-- Reads a task object back from its parsed JSON value: the reloaded object
is a well-formed task exactly when it has the five task fields with their
expected types and order. -/
def jsonToTask : Json → Option Task
  | .obj [("id", .num i), ("text", .str s), ("completed", .bool b),
      ("priority", .str p), ("createdAt", .str c)] =>
    some { id := i, text := s, completed := b, priority := p, createdAt := c }
  | _ => none

/-- Reads back a list of task objects, failing if any element is malformed. -/
def decodeTasks : List Json → Option (List Task)
  | [] => some []
  | j :: js =>
    match jsonToTask j, decodeTasks js with
    | some t, some ts => some (t :: ts)
    | _, _ => none

/-- Reads the reloaded collection from the parsed JSON value of the stored
entry. -/
def reloadTodos : Json → Option (List Task)
  | .arr elems => decodeTasks elems
  | _ => none

/-- C2: adding a task whose trimmed text is non-empty grows the collection by
exactly one, prepends the newly constructed task, and that task has
`completed = false`, the given priority and the given (untrimmed) text. -/
theorem addTodo_nonblank_spec (text priority : String) (newId : Int) (now : String)
    (prev : List Task) (h : jsTrim text ≠ "") :
    (addTodo text priority newId now prev).length = prev.length + 1 ∧
    (addTodo text priority newId now prev).head? =
      some { id := newId, text := text, completed := false, priority := priority,
             createdAt := now } ∧
    (addTodo text priority newId now prev).tail = prev := by
  simp [addTodo, h]

/-- Witness for `addTodo_nonblank_spec` at a concrete non-blank text. -/
theorem addTodo_nonblank_spec_witness :
    (addTodo "Buy milk" "low" 7 "2024-01-01" []).length = ([] : List Task).length + 1 ∧
    (addTodo "Buy milk" "low" 7 "2024-01-01" []).head? =
      some { id := 7, text := "Buy milk", completed := false, priority := "low",
             createdAt := "2024-01-01" } ∧
    (addTodo "Buy milk" "low" 7 "2024-01-01" []).tail = [] :=
  addTodo_nonblank_spec "Buy milk" "low" 7 "2024-01-01" [] (by decide)

/-- C9: adding a task whose trimmed text is empty (blank or whitespace-only)
leaves the collection unchanged; the operation is total (no error). -/
theorem addTodo_blank_noop (text priority : String) (newId : Int) (now : String)
    (prev : List Task) (h : jsTrim text = "") :
    addTodo text priority newId now prev = prev := by
  simp [addTodo, h]

/-- Witness for `addTodo_blank_noop` at a whitespace-only text. -/
theorem addTodo_blank_noop_witness :
    addTodo "   " "high" 3 "2024-01-01" [] = [] :=
  addTodo_blank_noop "   " "high" 3 "2024-01-01" [] (by decide)

/-- C3 (code bug): a collection with two tasks sharing the same id is reachable
from the empty collection, because `addTodo` takes its id from `Date.now()`
and two calls in the same millisecond receive the same value. -/
theorem reachable_duplicate_ids :
    Reachable (addTodo "b" "low" 1000 "t" (addTodo "a" "low" 1000 "t" [])) ∧
    ¬ ((addTodo "b" "low" 1000 "t" (addTodo "a" "low" 1000 "t" [])).map Task.id).Nodup := by
  constructor
  · exact Reachable.add "b" "low" 1000 "t" (Reachable.add "a" "low" 1000 "t" Reachable.empty)
  · decide

/-- C4: toggling an id preserves the length; the task at a position whose id
matches has exactly its `completed` field flipped (id, text, priority,
createdAt unchanged), a task whose id does not match is unchanged; and on a
collection with no matching id the operation is the identity. -/
theorem toggleTodo_frame (prev : List Task) (tid : Int) (i : Nat) (t : Task)
    (h : prev[i]? = some t) :
    (toggleTodo tid prev).length = prev.length ∧
    (t.id = tid → ∃ t', (toggleTodo tid prev)[i]? = some t' ∧
      t'.completed = !t.completed ∧ t'.id = t.id ∧ t'.text = t.text ∧
      t'.priority = t.priority ∧ t'.createdAt = t.createdAt) ∧
    (t.id ≠ tid → (toggleTodo tid prev)[i]? = some t) ∧
    (∀ l : List Task, (∀ u ∈ l, u.id ≠ tid) → toggleTodo tid l = l) := by
  refine ⟨by simp [toggleTodo], ?_, ?_, ?_⟩
  · intro hid
    exact ⟨{ t with completed := !t.completed },
      by simp [toggleTodo, List.getElem?_map, h, hid], rfl, rfl, rfl, rfl, rfl⟩
  · intro hid
    simp [toggleTodo, List.getElem?_map, h, hid]
  · intro l hl
    simp only [toggleTodo]
    have hcongr :
        l.map (fun u => if u.id = tid then { u with completed := !u.completed } else u) =
          l.map (fun u => u) :=
      List.map_congr_left (fun u hu => by rw [if_neg (hl u hu)])
    simpa using hcongr

/-- Witness for `toggleTodo_frame`: position 0 of `[sampleA, sampleB]` holds
`sampleA`, whose id matches the toggled id 1. -/
theorem toggleTodo_frame_witness :
    (toggleTodo 1 [sampleA, sampleB]).length = [sampleA, sampleB].length ∧
    (sampleA.id = 1 → ∃ t', (toggleTodo 1 [sampleA, sampleB])[0]? = some t' ∧
      t'.completed = !sampleA.completed ∧ t'.id = sampleA.id ∧ t'.text = sampleA.text ∧
      t'.priority = sampleA.priority ∧ t'.createdAt = sampleA.createdAt) ∧
    (sampleA.id ≠ 1 → (toggleTodo 1 [sampleA, sampleB])[0]? = some sampleA) ∧
    (∀ l : List Task, (∀ u ∈ l, u.id ≠ 1) → toggleTodo 1 l = l) :=
  toggleTodo_frame [sampleA, sampleB] 1 0 sampleA (by decide)

/-- C5: on a collection with pairwise-distinct ids (the data-model invariant)
containing a task with the given id, `deleteTodo` shrinks the length by
exactly one, the result is a sublist of the original (relative order kept),
and an element is retained exactly when its id differs from the deleted id;
on a collection with no matching id the operation is the identity. -/
theorem deleteTodo_removes_match (prev : List Task) (tid : Int) (t : Task)
    (hmem : t ∈ prev) (hid : t.id = tid) (hnodup : (prev.map Task.id).Nodup) :
    (deleteTodo tid prev).length + 1 = prev.length ∧
    (deleteTodo tid prev).Sublist prev ∧
    (∀ u, u ∈ deleteTodo tid prev ↔ (u ∈ prev ∧ u.id ≠ tid)) ∧
    (∀ l : List Task, (∀ u ∈ l, u.id ≠ tid) → deleteTodo tid l = l) := by
  refine ⟨?_, List.filter_sublist _, ?_, ?_⟩
  · have hcount : prev.countP (fun u => u.id == tid) = 1 := by
      have h1 : (prev.map Task.id).count tid = 1 :=
        List.count_eq_one_of_mem hnodup (hid ▸ List.mem_map_of_mem Task.id hmem)
      simpa [List.count, List.countP_map, Function.comp_def] using h1
    have hsplit := List.length_eq_countP_add_countP (fun u => u.id == tid) prev
    have hlen : (deleteTodo tid prev).length
        = prev.countP (fun a => decide ¬((a.id == tid) = true)) := by
      rw [deleteTodo, ← List.countP_eq_length_filter]
      exact List.countP_congr (fun u _ => by simp [bne])
    omega
  · intro u
    simp [deleteTodo, List.mem_filter]
  · intro l hl
    refine List.filter_eq_self.mpr (fun u hu => ?_)
    simpa using hl u hu

/-- Witness for `deleteTodo_removes_match`: deleting id 2 from
`[sampleA, sampleB]`, which contains `sampleB` with id 2 and has distinct ids. -/
theorem deleteTodo_removes_match_witness :
    (deleteTodo 2 [sampleA, sampleB]).length + 1 = [sampleA, sampleB].length ∧
    (deleteTodo 2 [sampleA, sampleB]).Sublist [sampleA, sampleB] ∧
    (∀ u, u ∈ deleteTodo 2 [sampleA, sampleB] ↔ (u ∈ [sampleA, sampleB] ∧ u.id ≠ 2)) ∧
    (∀ l : List Task, (∀ u ∈ l, u.id ≠ 2) → deleteTodo 2 l = l) :=
  deleteTodo_removes_match [sampleA, sampleB] 2 sampleB (by decide) (by decide) (by decide)

/-- C6: `clearCompleted` keeps the surviving tasks in their original relative
order (sublist), and a task is in the result exactly when it is in the
original collection with `completed = false`: all completed tasks are removed
and all uncompleted tasks are retained. -/
theorem clearCompleted_spec (prev : List Task) :
    (clearCompleted prev).Sublist prev ∧
    ∀ t, t ∈ clearCompleted prev ↔ (t ∈ prev ∧ t.completed = false) := by
  refine ⟨List.filter_sublist _, fun t => ?_⟩
  simp [clearCompleted, List.mem_filter]

/-- C7: the visible list is a pure function of the collection and filter:
under "active" it is exactly the uncompleted tasks in original order, under
"completed" exactly the completed tasks in original order, and under "all"
the collection itself. -/
theorem filteredTodos_spec (todos : List Task) :
    ((filteredTodos "active" todos).Sublist todos ∧
      ∀ t, t ∈ filteredTodos "active" todos ↔ (t ∈ todos ∧ t.completed = false)) ∧
    ((filteredTodos "completed" todos).Sublist todos ∧
      ∀ t, t ∈ filteredTodos "completed" todos ↔ (t ∈ todos ∧ t.completed = true)) ∧
    filteredTodos "all" todos = todos := by
  refine ⟨⟨?_, fun t => ?_⟩, ⟨?_, fun t => ?_⟩, ?_⟩ <;>
    simp [filteredTodos, List.mem_filter, List.filter_sublist]

/-- C10: any filter string other than "active" and "completed" (not only
"all") leaves the collection unchanged, since the store does not constrain
the filter value. -/
theorem filteredTodos_other_filters (todos : List Task) (filter : String)
    (h1 : filter ≠ "active") (h2 : filter ≠ "completed") :
    filteredTodos filter todos = todos := by
  simp [filteredTodos, h1, h2]

/-- Witness for `filteredTodos_other_filters` at the filter string "ALL". -/
theorem filteredTodos_other_filters_witness :
    filteredTodos "ALL" [sampleA, sampleB] = [sampleA, sampleB] :=
  filteredTodos_other_filters [sampleA, sampleB] "ALL" (by decide) (by decide)

/-- C1 counterexample: the stored entry "x" is present but malformed, so
`JSON.parse` fails; the initializer propagates the error (the exception) and
does not produce the empty collection, contrary to the claim. -/
theorem initTodos_malformed_raises :
    initTodos (some "x") = Except.error "unexpected character" ∧
    initTodos (some "x") ≠ Except.ok (Json.arr []) := by
  constructor
  · rfl
  · intro h
    rw [show initTodos (some "x") = Except.error "unexpected character" from rfl] at h
    exact Except.noConfusion h

/-- C1 amended: when no entry is stored, initialization yields the empty
collection; but when a non-empty stored string fails to deserialize, the
initializer propagates the parse error (raises) instead of falling back to
the empty collection. -/
theorem initTodos_fallback (s e : String) (hs : s ≠ "")
    (hp : Json.parse s = Except.error e) :
    initTodos none = Except.ok (Json.arr []) ∧
    initTodos (some s) = Except.error e :=
  ⟨rfl, by simp [initTodos, hs, hp]⟩

/-- Witness for `initTodos_fallback` at the malformed stored string "x". -/
theorem initTodos_fallback_witness :
    initTodos none = Except.ok (Json.arr []) ∧
    initTodos (some "x") = Except.error "unexpected character" :=
  initTodos_fallback "x" "unexpected character" (by decide) rfl

/-- C8: the persist-then-reload round trip reproduces the collection: the
reloaded value contains the same tasks, with the same id, text, completed,
priority and createdAt, in the same order. -/
theorem persist_reload_roundtrip (todos : List Task) :
    reloadTodos (persistTodos todos) = some todos := by
  have h : decodeTasks (todos.map taskToJson) = some todos := by
    induction todos with
    | nil => rfl
    | cons t ts ih =>
      cases t
      simp [decodeTasks, taskToJson, jsonToTask, ih]
  simpa [persistTodos, reloadTodos] using h

end GptTodo
